import Mathlib

/-!
Verification of the filter-composition and projection engine of
`src/app.py` (a Streamlit product-table dashboard).  The Python script is
shallowly embedded: a pandas `DataFrame` becomes a column-name list plus a
list of rows (association lists from column name to cell), pandas/NumPy
floats become `Option ℚ` (`none` plays the role of `NaN`, whose comparisons
are all false), and operations that can raise (column indexing on an absent
column) return `Except`.
-/

/-- A cell of the loaded dataframe: either a string (the categorical columns
are passed through `astype(str)` at load time) or a float (`Option ℚ`, with
`none` standing for `NaN`, produced by `pd.to_numeric(errors='coerce')`). -/
inductive Cell where
  | str (s : String)
  | num (q : Option ℚ)
deriving DecidableEq

/-- A dataframe row: an association list from column name to cell. -/
def Row : Type := List (String × Cell)

instance : DecidableEq Row := inferInstanceAs (DecidableEq (List (String × Cell)))

/-- The value of row `r` in column `c` (`none` when the row has no such key;
in a well-formed dataframe every row has every column of the frame). -/
def rowVal (r : Row) (c : String) : Option Cell :=
  List.lookup c r

/-- A pandas `DataFrame`: its column names and its rows, in order. -/
structure DataFrame where
  cols : List String
  rows : List Row
deriving DecidableEq

/-- `a > b` on floats modelled as `Option ℚ`: any comparison against `NaN`
(`none`) is false, as for IEEE floats in Python. -/
def gtO (a b : Option ℚ) : Bool :=
  match a, b with
  | some x, some y => decide (y < x)
  | _, _ => false

/-- `a < b` on floats modelled as `Option ℚ`; comparisons with `NaN` are false. -/
def ltO (a b : Option ℚ) : Bool :=
  match a, b with
  | some x, some y => decide (x < y)
  | _, _ => false

/-- `series.isin(vals)` applied to one cell: a string cell is in the list iff
it equals one of the (string) values; a float cell never equals a string. -/
def cellIsin (x : Option Cell) (vals : List String) : Bool :=
  match x with
  | some (Cell.str s) => vals.contains s
  | _ => false

/-- `series.between(lo, hi)` applied to one cell: true iff the cell is a
parsed number `q` with `lo ≤ q ≤ hi`; `NaN` bounds or a `NaN`/non-numeric
cell give false (pandas excludes such rows). -/
def betweenCell (x : Option Cell) (lo hi : Option ℚ) : Bool :=
  match x, lo, hi with
  | some (Cell.num (some q)), some l, some h => decide (l ≤ q) && decide (q ≤ h)
  | _, _, _ => false

/-- Numeric values present in a column: models `df[col].dropna()` for a
column of floats (cells that are parsed numbers). -/
def numericValues (df : DataFrame) (col : String) : List ℚ :=
  df.rows.filterMap (fun r =>
    match rowVal r col with
    | some (Cell.num (some q)) => some q
    | _ => none)

/-- `float(df[col].dropna().min())`: `none` models the `NaN` that pandas
returns for the minimum of an empty series. -/
def colMin (df : DataFrame) (col : String) : Option ℚ :=
  match numericValues df col with
  | [] => none
  | q :: qs => some (qs.foldl min q)

/-- `float(df[col].dropna().max())`: `none` models the `NaN` of an empty series. -/
def colMax (df : DataFrame) (col : String) : Option ℚ :=
  match numericValues df col with
  | [] => none
  | q :: qs => some (qs.foldl max q)

/-- `[val for check, val in [(c1, v1), (c2, v2)] if check]` — the allowed-value
list of a boolean-pair filter, built from exactly the checked states
(src/app.py lines 157, 160, 163). -/
def pairSel (c1 : Bool) (v1 : String) (c2 : Bool) (v2 : String) : List String :=
  (if c1 then [v1] else []) ++ (if c2 then [v2] else [])

/-- `if selections: filtered_df = filtered_df[filtered_df[col].isin(selections)]`
(src/app.py lines 158, 161, 164, 170, 171, 172).  An empty selection list is
falsy in Python, so the dataframe is returned unchanged; with a non-empty
selection, indexing `filtered_df[col]` raises a `KeyError` when `col` is not
a column of the frame. -/
def isinStep (d : DataFrame) (col : String) (vals : List String) : Except String DataFrame :=
  if vals.isEmpty then .ok d
  else if col ∈ d.cols then
    .ok ⟨d.cols, d.rows.filter (fun r => cellIsin (rowVal r col) vals)⟩
  else .error ("KeyError: " ++ col)

/-- `if checked: filtered_df = filtered_df[filtered_df[col] == v]`
(src/app.py lines 166, 167).  When unchecked the frame is unchanged; when
checked, indexing an absent column raises a `KeyError`. -/
def eqStep (d : DataFrame) (active : Bool) (col : String) (v : String) : Except String DataFrame :=
  if active then
    if col ∈ d.cols then
      .ok ⟨d.cols, d.rows.filter (fun r =>
        match rowVal r col with
        | some (Cell.str s) => s == v
        | _ => false)⟩
    else .error ("KeyError: " ++ col)
  else .ok d

/-- src/app.py lines 174-180: the range filter.  Bounds `colMin df0 col`,
`colMax df0 col` are those of the full dataframe `df0` computed at widget
creation time (lines 130-151); the filter runs only when the column is
present and the selected interval moved past a bound
(`selected[0] > min or selected[1] < max`); then it keeps rows with
`df[col].between(lo, hi)`. -/
def rangeStep (df0 d : DataFrame) (col : String) (rng : Option ℚ × Option ℚ) : DataFrame :=
  if col ∈ d.cols then
    if gtO rng.1 (colMin df0 col) || ltO rng.2 (colMax df0 col) then
      ⟨d.cols, d.rows.filter (fun r => betweenCell (rowVal r col) rng.1 rng.2)⟩
    else d
  else d

/-- The user's sidebar selections (src/app.py lines 86-152): the eight
attribute checkboxes, the three option lists (material, origin, quantity),
and the two slider ranges. -/
structure Selections where
  is_flushable : Bool
  is_not_flushable : Bool
  is_scented : Bool
  is_unscented : Bool
  is_clumping : Bool
  is_non_clumping : Bool
  is_eco_friendly : Bool
  is_health_monitoring : Bool
  selected_mat_options : List String
  selected_loc_options : List String
  selected_qty_options : List String
  selected_size_range : Option ℚ × Option ℚ
  selected_price_range : Option ℚ × Option ℚ
deriving DecidableEq

/-- The filtering logic of src/app.py lines 155-180, applied in program
order starting from `filtered_df = df.copy()` (line 79).  `df0` is the
full (sorted) dataframe, from which the slider bounds were computed. -/
def applyFilters (df0 : DataFrame) (sel : Selections) : Except String DataFrame := do
  let d1 ← isinStep df0 "Flushable"
    (pairSel sel.is_flushable "Flushable" sel.is_not_flushable "Not Flushable")
  let d2 ← isinStep d1 "Scent"
    (pairSel sel.is_scented "Scented" sel.is_unscented "Unscented")
  let d3 ← isinStep d2 "Clumping"
    (pairSel sel.is_clumping "Clumping" sel.is_non_clumping "Non-Clumping")
  let d4 ← eqStep d3 sel.is_eco_friendly "Eco_friendly" "Eco-friendly"
  let d5 ← eqStep d4 sel.is_health_monitoring "Health_Monitoring" "Yes"
  let d6 ← isinStep d5 "Material Type" sel.selected_mat_options
  let d7 ← isinStep d6 "Mfg_Location" sel.selected_loc_options
  let d8 ← isinStep d7 "Qty" sel.selected_qty_options
  let d9 := rangeStep df0 d8 "Size" sel.selected_size_range
  return rangeStep df0 d9 "Current_Price" sel.selected_price_range

/-- The sort key of a row: its `Mean_Performance` cell as a float
(`none` = `NaN` or non-numeric). -/
def mpKey (r : Row) : Option ℚ :=
  match rowVal r "Mean_Performance" with
  | some (Cell.num q) => q
  | _ => none

/-- The comparison `pandas` hands to the ascending argsort: compare the
attached sort keys. -/
def keyLE (a b : ℚ × Row) : Prop := a.1 ≤ b.1

instance : DecidableRel keyLE := fun a b => inferInstanceAs (Decidable (a.1 ≤ b.1))

instance : IsTotal (ℚ × Row) keyLE := ⟨fun a b => le_total a.1 b.1⟩

instance : IsTrans (ℚ × Row) keyLE := ⟨fun _ _ _ h h' => le_trans h h'⟩

/-- `df.sort_values(by='Mean_Performance', ascending=False)` guarded by
`'Mean_Performance' in df.columns` (src/app.py lines 73-74).  pandas
`nargsort` separates the `NaN` rows for the end (`na_position='last'`) and,
for `ascending=False`, *reverses* the non-`NaN` keys, argsorts them
ascending, and reverses the resulting indexer again — the standard
stable-descending construction, under which tied keys keep their original
relative order.  The ascending argsort is modelled as a stable insertion
sort (NumPy's introsort is insertion sort on short inputs and `mergesort`/
`stable` kinds are stable in general). -/
def sortByMeanPerfDesc (df : DataFrame) : DataFrame :=
  if "Mean_Performance" ∈ df.cols then
    ⟨df.cols,
     ((List.insertionSort keyLE
         ((df.rows.filterMap (fun r => (mpKey r).map (fun q => (q, r)))).reverse)).reverse.map
       Prod.snd) ++
     df.rows.filter (fun r => (mpKey r).isNone)⟩
  else df

/-- `display_column_map` (src/app.py lines 206-217): source column, display label. -/
def display_column_map : List (String × String) :=
  [("Amazon_Product", "Product Name"),
   ("Composition", "Composition"),
   ("Size", "Size (lbs)"),
   ("Qty", "Quantity"),
   ("Current_Price", "Price ($)"),
   ("Affiliate_url", "Buy on Amazon"),
   ("P_Odor_Blocking_T2_if_True", "Odor Control"),
   ("P_Tracking_T2_if_True", "Tracking"),
   ("P_Dust_T2_if_True", "Dustiness"),
   ("P_Cleaning_T2_if_True", "Cleaning Ease")]

/-- `performance_rating_cols` (src/app.py lines 220-223). -/
def performance_rating_cols : List String :=
  ["P_Odor_Blocking_T2_if_True", "P_Tracking_T2_if_True",
   "P_Dust_T2_if_True", "P_Cleaning_T2_if_True"]

/-- A decimal-literal parser modelling `pd.to_numeric(errors='coerce')` on a
string: optional surrounding spaces, optional sign, digits with an optional
single decimal point (scientific notation is out of scope for this data).
Unparseable input coerces to `NaN` (`none`). -/
def readNatAux : List Char → Nat → Option Nat
  | [], acc => some acc
  | c :: cs, acc =>
    if '0' ≤ c ∧ c ≤ '9' then readNatAux cs (acc * 10 + (c.toNat - 48))
    else none

/-- Digit-string to `Nat`; `none` on the empty string or a non-digit. -/
def readNat (cs : List Char) : Option Nat :=
  if cs.isEmpty then none else readNatAux cs 0

/-- Unsigned decimal literal: `"12"`, `"12.5"`, `"12."`, `".5"`.  The value
of `ip.fp` is `(ip * 10 ^ len + fp) / 10 ^ len`, written with `mkRat`. -/
def parseUnsigned (cs : List Char) : Option ℚ :=
  match cs.splitOn '.' with
  | [ip] => (readNat ip).map (fun n => (n : ℚ))
  | [ip, fp] =>
    if ip.isEmpty && fp.isEmpty then none
    else
      match (if ip.isEmpty then some 0 else readNat ip),
            (if fp.isEmpty then some 0 else readNat fp) with
      | some i, some f =>
        some (mkRat (Int.ofNat (i * 10 ^ fp.length + f)) (10 ^ fp.length))
      | _, _ => none
  | _ => none

/-- Signed decimal literal with surrounding spaces stripped. -/
def parseDecimal (s : String) : Option ℚ :=
  let cs := ((s.data.dropWhile (· = ' ')).reverse.dropWhile (· = ' ')).reverse
  match cs with
  | '-' :: rest => (parseUnsigned rest).map Neg.neg
  | '+' :: rest => parseUnsigned rest
  | _ => parseUnsigned cs

/-- `pd.to_numeric(cell, errors='coerce')`: a float passes through, a string
is parsed (`NaN` when unparseable). -/
def cellNum (c : Cell) : Option ℚ :=
  match c with
  | Cell.num q => q
  | Cell.str s => parseDecimal s

/-- Python `int()` on a float: truncation toward zero
(`Int.tdiv` is exactly the numerator/denominator division rounded toward zero). -/
def truncQ (q : ℚ) : ℤ :=
  q.num.tdiv (q.den : ℤ)

/-- The decimal digit character for `n < 10` (`n % 10` in use). -/
def digChar (n : Nat) : Char :=
  if n = 0 then '0' else if n = 1 then '1' else if n = 2 then '2'
  else if n = 3 then '3' else if n = 4 then '4' else if n = 5 then '5'
  else if n = 6 then '6' else if n = 7 then '7' else if n = 8 then '8'
  else '9'

/-- The decimal digits of `n`, most significant first; structural recursion
on a fuel argument (`fuel ≥ n` suffices since `n / 10 < n` for `n ≥ 10`). -/
def natDigsAux : Nat → Nat → List Char
  | 0, n => [digChar n]
  | fuel + 1, n =>
    if n < 10 then [digChar n]
    else natDigsAux fuel (n / 10) ++ [digChar (n % 10)]

/-- The decimal digits of `n`, most significant first. -/
def natDigs (n : Nat) : List Char := natDigsAux n n

/-- Python `str` of a nonnegative integer. -/
def natStr (n : Nat) : String := ⟨natDigs n⟩

/-- Python `str` of an `int`: minimal decimal form, `-` sign for negatives. -/
def intStr (z : ℤ) : String :=
  if z < 0 then "-" ++ natStr z.natAbs else natStr z.natAbs

/-- `sorted(pd.to_numeric(df['Qty'], errors='coerce').dropna().unique())`
(src/app.py line 121): the distinct parseable numeric values of the `Qty`
column, ascending. -/
def qty_options (df : DataFrame) : List ℚ :=
  List.insertionSort (· ≤ ·)
    ((df.rows.filterMap (fun r => (rowVal r "Qty").bind (fun c => cellNum c))).dedup)

/-- The checkbox labels of the quantity filter, `str(int(option))` for each
option (src/app.py line 123); a checked label is appended verbatim to
`selected_qty_options` (line 124). -/
def qtyLabels (df : DataFrame) : List String :=
  (qty_options df).map (fun v => intStr (truncQ v))

/-- `pd.to_numeric(col, errors='coerce').fillna(0) * 100` applied to one
cell (src/app.py line 227). -/
def transCell (c : Cell) : Cell :=
  Cell.num (some (((cellNum c).getD 0) * 100))

/-- The percentage transform of `display_df_intermediate` applied to one
row: every cell of a performance-rating column present in the dataframe is
rescaled (src/app.py lines 224-227). -/
def transRow (cols : List String) (r : Row) : Row :=
  r.map (fun kv =>
    if kv.1 ∈ performance_rating_cols ∧ kv.1 ∈ cols then (kv.1, transCell kv.2) else kv)

/-- `existing_display_columns` (src/app.py line 230): the display-mapping
source columns that exist in the dataframe, in mapping order. -/
def existing_display_columns (dmap : List (String × String)) (df : DataFrame) : List String :=
  (dmap.map Prod.fst).filter (fun c => c ∈ df.cols)

/-- `display_df_intermediate[existing][...].rename(...)` applied to one row:
keep the existing display columns in order and rename each to its label. -/
def projectRow (dmap : List (String × String)) (existing : List String) (r : Row) : Row :=
  existing.filterMap (fun c => (rowVal r c).map (fun v => ((dmap.lookup c).getD c, v)))

/-- What the main page renders (src/app.py lines 203-252): the match-count
line, the display table (renamed columns and projected rows), and the
warning text shown instead of a table when no display column exists. -/
structure AppOutput where
  match_count : Nat
  table_cols : List String
  table : List Row
  warning : Option String
deriving DecidableEq

/-- src/app.py lines 219-252: build `display_df_intermediate`, keep the
existing display columns, and either warn (`st.warning`, line 233) when none
exists or rename and show the table. -/
def displayPrep (fd : DataFrame) (dmap : List (String × String)) :
    List String × List Row × Option String :=
  let inter := fd.rows.map (transRow fd.cols)
  let existing := existing_display_columns dmap fd
  if existing.isEmpty then
    ([], [], some "No data to display based on the selected columns.")
  else
    (existing.map (fun c => (dmap.lookup c).getD c),
     inter.map (projectRow dmap existing),
     none)

/-- The whole per-interaction computation of src/app.py lines 71-252 for a
non-empty dataframe: default sort (lines 73-74), filtering (lines 79,
155-180), the match count `len(filtered_df)` (line 203), and the display
table (lines 205-252).  An uncaught `KeyError` from the filtering logic is
the `Except.error` case. -/
def runApp (df : DataFrame) (sel : Selections) (dmap : List (String × String)) :
    Except String AppOutput :=
  match applyFilters (sortByMeanPerfDesc df) sel with
  | .error e => .error e
  | .ok fd =>
    let t := displayPrep fd dmap
    .ok ⟨fd.rows.length, t.1, t.2.1, t.2.2⟩

/-- A raw value of a categorical column as it arrives from the warehouse
query, before cleaning: a string or a missing value (`NaN`). -/
inductive RawVal where
  | str (s : String)
  | missing
deriving DecidableEq

/-- Python `str()` of a raw value: `str(nan)` is the string `"nan"`. -/
def pyStr (v : RawVal) : String :=
  match v with
  | RawVal.str s => s
  | RawVal.missing => "nan"

/-- `column.astype(str)` (src/app.py line 50, first step): every value
becomes its string form; a missing value becomes the string `"nan"`. -/
def astype_str (col : List RawVal) : List RawVal :=
  col.map (fun v => RawVal.str (pyStr v))

/-- `column.fillna(d)` (src/app.py line 50, second step): replace only the
values that are still missing. -/
def fillna (col : List RawVal) (d : String) : List RawVal :=
  col.map (fun v => match v with | RawVal.missing => RawVal.str d | x => x)

/-- The categorical cleaning of `load_data`:
`df[col].astype(str).fillna('N/A')` (src/app.py line 50). -/
def cleanCategorical (col : List RawVal) : List RawVal :=
  fillna (astype_str col) "N/A"

/-- The selections state before any user interaction: every checkbox
unchecked, no option checked, and each slider left at its default value
`(min, max)` of the column — or the `(0, 0)` fallback when the column is
absent (src/app.py lines 86-152). -/
def defaultSelections (df : DataFrame) : Selections where
  is_flushable := false
  is_not_flushable := false
  is_scented := false
  is_unscented := false
  is_clumping := false
  is_non_clumping := false
  is_eco_friendly := false
  is_health_monitoring := false
  selected_mat_options := []
  selected_loc_options := []
  selected_qty_options := []
  selected_size_range :=
    if "Size" ∈ df.cols then (colMin df "Size", colMax df "Size") else (some 0, some 0)
  selected_price_range :=
    if "Current_Price" ∈ df.cols then (colMin df "Current_Price", colMax df "Current_Price")
    else (some 0, some 0)

/-- `df[col].unique()`: the distinct values occurring in a column. -/
def distinctCells (df : DataFrame) (col : String) : List Cell :=
  (df.rows.filterMap (fun r => rowVal r col)).dedup

/-- Modelled from the spec: the spec's `compile_mask` set-filter contract
with an explicit empty-selection policy (section 4.1) is not implemented as
a reusable engine in src/app.py, so it is modelled here from the spec's
words.  Under *default-none* an empty selection makes the filter inactive;
under *default-all* an empty selection means every distinct value of the
column is considered selected and the row predicate is the membership test.
A filter whose caller did restrict the selection but whose column is absent
is skipped with a warning; an unrestricted filter emits no warning. -/
def compileSetMask (defaultAll : Bool) (df : DataFrame) (col : String)
    (selection : List Cell) : List Bool × List String :=
  if selection.isEmpty ∧ defaultAll = false then
    (df.rows.map (fun _ => true), [])
  else
    let sel' := if selection.isEmpty then distinctCells df col else selection
    if col ∈ df.cols then
      (df.rows.map (fun r => (rowVal r col).elim false (fun c => sel'.contains c)), [])
    else
      (df.rows.map (fun _ => true),
       if selection.isEmpty then [] else ["skipped filter on absent column: " ++ col])

/-- The boolean-pair allowed-value predicate on a single looked-up cell:
true when the cell is the stored value of a checked state.  (`filter_df[col]
.isin(pairSel ...)` row-by-row.) -/
def isinPredicate (col : String) (vals : List String) (r : Row) : Bool :=
  vals.isEmpty || cellIsin (rowVal r col) vals

/-- The flag-filter row predicate: inactive boxes restrict nothing. -/
def eqPredicate (active : Bool) (col : String) (v : String) (r : Row) : Bool :=
  !active ||
    (match rowVal r col with
     | some (Cell.str s) => s == v
     | _ => false)

/-- The range-filter row predicate with the activity guard of
src/app.py lines 174-180: restricts only when the column is present and a
slider bound was moved inside the full data range. -/
def rangePredicate (df0 : DataFrame) (cs : List String) (col : String)
    (rng : Option ℚ × Option ℚ) (r : Row) : Bool :=
  if col ∈ cs ∧ (gtO rng.1 (colMin df0 col) || ltO rng.2 (colMax df0 col)) = true then
    betweenCell (rowVal r col) rng.1 rng.2
  else true

/-- The conjunction of all ten filter row-predicates of src/app.py lines
155-180, evaluated against the full dataframe `df0` (whose columns and
slider bounds the guards consult): the "compiled mask" of one row. -/
def rowPasses (df0 : DataFrame) (sel : Selections) (r : Row) : Bool :=
  isinPredicate "Flushable"
      (pairSel sel.is_flushable "Flushable" sel.is_not_flushable "Not Flushable") r &&
  isinPredicate "Scent"
      (pairSel sel.is_scented "Scented" sel.is_unscented "Unscented") r &&
  isinPredicate "Clumping"
      (pairSel sel.is_clumping "Clumping" sel.is_non_clumping "Non-Clumping") r &&
  eqPredicate sel.is_eco_friendly "Eco_friendly" "Eco-friendly" r &&
  eqPredicate sel.is_health_monitoring "Health_Monitoring" "Yes" r &&
  isinPredicate "Material Type" sel.selected_mat_options r &&
  isinPredicate "Mfg_Location" sel.selected_loc_options r &&
  isinPredicate "Qty" sel.selected_qty_options r &&
  rangePredicate df0 df0.cols "Size" sel.selected_size_range r &&
  rangePredicate df0 df0.cols "Current_Price" sel.selected_price_range r

theorem except_bind_ok {α β : Type} {x : Except String α} {f : α → Except String β} {b : β}
    (h : (x >>= f) = Except.ok b) : ∃ a, x = Except.ok a ∧ f a = Except.ok b := by
  cases x with
  | error e => exact absurd h (by simp [Bind.bind, Except.bind])
  | ok a => exact ⟨a, rfl, by simpa [Bind.bind, Except.bind] using h⟩

theorem isinStep_ok {d d' : DataFrame} {col : String} {vals : List String}
    (h : isinStep d col vals = Except.ok d') :
    d'.cols = d.cols ∧ d'.rows = d.rows.filter (isinPredicate col vals) := by
  unfold isinStep at h
  by_cases he : vals.isEmpty = true
  · simp only [he, if_true] at h
    cases h
    refine ⟨rfl, ?_⟩
    exact (List.filter_eq_self.2 (fun r _ => by simp [isinPredicate, he])).symm
  · have he' : vals.isEmpty = false := by simpa using he
    by_cases hc : col ∈ d.cols
    · simp only [he', hc, Bool.false_eq_true, if_false, if_true] at h
      cases h
      refine ⟨rfl, ?_⟩
      exact (List.filter_congr (fun r _ => by simp [isinPredicate, he'])).symm
    · simp [he', hc] at h

theorem eqStep_ok {d d' : DataFrame} {active : Bool} {col v : String}
    (h : eqStep d active col v = Except.ok d') :
    d'.cols = d.cols ∧ d'.rows = d.rows.filter (eqPredicate active col v) := by
  unfold eqStep at h
  cases active with
  | false =>
    simp only [Bool.false_eq_true, if_false] at h
    cases h
    refine ⟨rfl, ?_⟩
    exact (List.filter_eq_self.2 (fun r _ => by simp [eqPredicate])).symm
  | true =>
    by_cases hc : col ∈ d.cols
    · simp only [hc, if_true] at h
      cases h
      refine ⟨rfl, ?_⟩
      exact (List.filter_congr (fun r _ => by simp [eqPredicate])).symm
    · simp [hc] at h

theorem rangeStep_eq (df0 d : DataFrame) (col : String) (rng : Option ℚ × Option ℚ) :
    (rangeStep df0 d col rng).cols = d.cols ∧
    (rangeStep df0 d col rng).rows = d.rows.filter (rangePredicate df0 d.cols col rng) := by
  unfold rangeStep
  by_cases hc : col ∈ d.cols
  · by_cases hg : (gtO rng.1 (colMin df0 col) || ltO rng.2 (colMax df0 col)) = true
    · rw [if_pos hc, if_pos hg]
      refine ⟨rfl, ?_⟩
      exact (List.filter_congr (fun r _ => by simp [rangePredicate, hc, hg])).symm
    · have hg' : (gtO rng.1 (colMin df0 col) || ltO rng.2 (colMax df0 col)) = false := by
        simpa using hg
      rw [if_pos hc, if_neg (by simp [hg'])]
      refine ⟨rfl, ?_⟩
      exact (List.filter_eq_self.2 (fun r _ => by simp [rangePredicate, hg'])).symm
  · rw [if_neg hc]
    refine ⟨rfl, ?_⟩
    exact (List.filter_eq_self.2 (fun r _ => by simp [rangePredicate, hc])).symm

theorem applyFilters_ok {df0 : DataFrame} {sel : Selections} {fd : DataFrame}
    (h : applyFilters df0 sel = Except.ok fd) :
    fd.cols = df0.cols ∧ fd.rows = df0.rows.filter (rowPasses df0 sel) := by
  unfold applyFilters at h
  obtain ⟨d1, h1, h⟩ := except_bind_ok h
  obtain ⟨d2, h2, h⟩ := except_bind_ok h
  obtain ⟨d3, h3, h⟩ := except_bind_ok h
  obtain ⟨d4, h4, h⟩ := except_bind_ok h
  obtain ⟨d5, h5, h⟩ := except_bind_ok h
  obtain ⟨d6, h6, h⟩ := except_bind_ok h
  obtain ⟨d7, h7, h⟩ := except_bind_ok h
  obtain ⟨d8, h8, h⟩ := except_bind_ok h
  obtain ⟨hc1, hr1⟩ := isinStep_ok h1
  obtain ⟨hc2, hr2⟩ := isinStep_ok h2
  obtain ⟨hc3, hr3⟩ := isinStep_ok h3
  obtain ⟨hc4, hr4⟩ := eqStep_ok h4
  obtain ⟨hc5, hr5⟩ := eqStep_ok h5
  obtain ⟨hc6, hr6⟩ := isinStep_ok h6
  obtain ⟨hc7, hr7⟩ := isinStep_ok h7
  obtain ⟨hc8, hr8⟩ := isinStep_ok h8
  have hfd : fd = rangeStep df0 (rangeStep df0 d8 "Size" sel.selected_size_range)
      "Current_Price" sel.selected_price_range := by
    simpa [Pure.pure, Except.pure] using h.symm
  obtain ⟨hc9, hr9⟩ := rangeStep_eq df0 d8 "Size" sel.selected_size_range
  obtain ⟨hc10, hr10⟩ := rangeStep_eq df0 (rangeStep df0 d8 "Size" sel.selected_size_range)
      "Current_Price" sel.selected_price_range
  have hcols8 : d8.cols = df0.cols := by
    rw [hc8, hc7, hc6, hc5, hc4, hc3, hc2, hc1]
  constructor
  · rw [hfd, hc10, hc9, hcols8]
  · rw [hfd, hr10, hc9, hr9, hcols8, hr8, hr7, hr6, hr5, hr4, hr3, hr2, hr1]
    simp only [List.filter_filter]
    apply List.filter_congr
    intro r _
    unfold rowPasses
    ac_rfl

/-- "row `r` may come before row `s` in the descending display order":
both keys present and `s`'s is no larger, or `s` is a `NaN` row (they sit
at the end, `na_position='last'`). -/
def keyGE (a b : Option ℚ) : Prop :=
  match a, b with
  | some x, some y => y ≤ x
  | _, none => True
  | none, some _ => False

theorem pairwise_of_mem_rel {α : Type} {R : α → α → Prop} {l : List α}
    (h : ∀ a ∈ l, ∀ b ∈ l, R a b) : l.Pairwise R := by
  induction l with
  | nil => exact List.Pairwise.nil
  | cons a l ih =>
    refine List.Pairwise.cons (fun b hb => h a (by simp) b (by simp [hb])) (ih ?_)
    intro x hx y hy
    exact h x (by simp [hx]) y (by simp [hy])

theorem filterMap_key_map_snd (l : List Row) (f : Row → Option ℚ) :
    (l.filterMap (fun r => (f r).map (fun q => (q, r)))).map Prod.snd =
      l.filter (fun r => (f r).isSome) := by
  induction l with
  | nil => rfl
  | cons a l ih =>
    cases hf : f a <;> simp [List.filterMap_cons, hf, List.filter_cons, ih]

theorem mem_filterMap_key {l : List Row} {p : ℚ × Row}
    (hp : p ∈ l.filterMap (fun r => (mpKey r).map (fun q => (q, r)))) :
    mpKey p.2 = some p.1 := by
  rcases List.mem_filterMap.1 hp with ⟨r, _, hr⟩
  cases hk : mpKey r with
  | none => simp [hk] at hr
  | some q =>
    rw [hk] at hr
    have h2 : (q, r) = p := Option.some.inj hr
    rw [← h2]
    exact hk

theorem sortByMeanPerfDesc_cols (df : DataFrame) :
    (sortByMeanPerfDesc df).cols = df.cols := by
  unfold sortByMeanPerfDesc
  split <;> rfl

theorem sortByMeanPerfDesc_perm (df : DataFrame) :
    (sortByMeanPerfDesc df).rows.Perm df.rows := by
  unfold sortByMeanPerfDesc
  split
  · refine List.Perm.trans (List.Perm.append ?_ ?_)
      (List.filter_append_perm (fun r => (mpKey r).isSome) df.rows)
    · have h1 : (List.insertionSort keyLE
          ((df.rows.filterMap (fun r => (mpKey r).map (fun q => (q, r)))).reverse)).reverse.Perm
          (df.rows.filterMap (fun r => (mpKey r).map (fun q => (q, r)))) :=
        (List.reverse_perm _).trans
          ((List.perm_insertionSort _ _).trans (List.reverse_perm _))
      have h2 := h1.map Prod.snd
      rwa [filterMap_key_map_snd] at h2
    · have : df.rows.filter (fun r => (mpKey r).isNone) =
          df.rows.filter (fun r => !(mpKey r).isSome) :=
        List.filter_congr (fun r _ => by cases mpKey r <;> rfl)
      rw [this]
  · exact List.Perm.refl _

theorem sortByMeanPerfDesc_sorted (df : DataFrame) (h : "Mean_Performance" ∈ df.cols) :
    (sortByMeanPerfDesc df).rows.Pairwise (fun r s => keyGE (mpKey r) (mpKey s)) := by
  unfold sortByMeanPerfDesc
  rw [if_pos h]
  refine List.pairwise_append.2 ⟨?_, ?_, ?_⟩
  · refine List.pairwise_map.2 (List.pairwise_reverse.2 ?_)
    have hs : (List.insertionSort keyLE
        ((df.rows.filterMap (fun r => (mpKey r).map (fun q => (q, r)))).reverse)).Pairwise
        keyLE :=
      List.sorted_insertionSort keyLE _
    refine hs.imp_of_mem ?_
    intro p q hp hq hle
    have hp' : mpKey p.2 = some p.1 :=
      mem_filterMap_key
        (List.mem_reverse.1 ((List.perm_insertionSort keyLE _).mem_iff.1 hp))
    have hq' : mpKey q.2 = some q.1 :=
      mem_filterMap_key
        (List.mem_reverse.1 ((List.perm_insertionSort keyLE _).mem_iff.1 hq))
    rw [hq', hp']
    exact hle
  · refine pairwise_of_mem_rel ?_
    intro a _ b hb
    have hbk : mpKey b = none :=
      Option.isNone_iff_eq_none.1 ((List.mem_filter.1 hb).2)
    rw [hbk]
    cases mpKey a <;> trivial
  · intro a _ b hb
    have hbk : mpKey b = none :=
      Option.isNone_iff_eq_none.1 ((List.mem_filter.1 hb).2)
    rw [hbk]
    cases mpKey a <;> trivial

instance keyGEDec : ∀ a b : Option ℚ, Decidable (keyGE a b)
  | some x, some y => inferInstanceAs (Decidable (y ≤ x))
  | some _, none => Decidable.isTrue trivial
  | none, none => Decidable.isTrue trivial
  | none, some _ => Decidable.isFalse (fun h => h)

theorem ok_bind {α β : Type} (a : α) (f : α → Except String β) :
    (Except.ok a >>= f) = f a := rfl

theorem pairSel_isEmpty (c1 : Bool) (v1 : String) (c2 : Bool) (v2 : String) :
    (pairSel c1 v1 c2 v2).isEmpty = (!c1 && !c2) := by
  cases c1 <;> cases c2 <;> rfl

theorem rangeStep_noop (df0 d : DataFrame) (col : String) :
    rangeStep df0 d col (colMin df0 col, colMax df0 col) = d := by
  unfold rangeStep
  have hg : (gtO (colMin df0 col) (colMin df0 col) ||
      ltO (colMax df0 col) (colMax df0 col)) = false := by
    cases colMin df0 col <;> cases colMax df0 col <;> simp [gtO, ltO]
  simp [hg]

theorem isinStep_total {d : DataFrame} {col : String} {vals : List String}
    (h : vals ≠ [] → col ∈ d.cols) :
    ∃ d', isinStep d col vals = Except.ok d' ∧ d'.cols = d.cols := by
  unfold isinStep
  by_cases he : vals.isEmpty = true
  · rw [if_pos he]
    exact ⟨d, rfl, rfl⟩
  · have hne : vals ≠ [] := by simpa [List.isEmpty_iff] using he
    rw [if_neg he, if_pos (h hne)]
    exact ⟨_, rfl, rfl⟩

theorem eqStep_total {d : DataFrame} {active : Bool} {col v : String}
    (h : active = true → col ∈ d.cols) :
    ∃ d', eqStep d active col v = Except.ok d' ∧ d'.cols = d.cols := by
  unfold eqStep
  cases active with
  | false => exact ⟨d, by rw [if_neg (by simp)], rfl⟩
  | true =>
    rw [if_pos rfl, if_pos (h rfl)]
    exact ⟨_, rfl, rfl⟩

/-- C6: for a dataset whose range-filtered column holds no parseable numeric
value (entirely non-numeric or empty), the column minimum and maximum are
`NaN`, every activity comparison against them is false, and the range filter
restricts nothing, for every selected interval — `rangeStep` is a total
function, so no error is raised. -/
theorem C6_degenerate_numeric_inactive (df0 d : DataFrame) (col : String)
    (h : numericValues df0 col = []) (rng : Option ℚ × Option ℚ) :
    colMin df0 col = none ∧ colMax df0 col = none ∧ rangeStep df0 d col rng = d := by
  have hmin : colMin df0 col = none := by unfold colMin; rw [h]
  have hmax : colMax df0 col = none := by unfold colMax; rw [h]
  refine ⟨hmin, hmax, ?_⟩
  unfold rangeStep
  rw [hmin, hmax]
  have hg : (gtO rng.1 none || ltO rng.2 none) = false := by
    cases rng.1 <;> cases rng.2 <;> simp [gtO, ltO]
  simp [hg]

def dfDegen : DataFrame :=
  ⟨["Size"], [[("Size", Cell.num none)], [("Size", Cell.str "oops")]]⟩

theorem C6_degenerate_numeric_inactive_witness :
    numericValues dfDegen "Size" = [] ∧
    (colMin dfDegen "Size" = none ∧ colMax dfDegen "Size" = none ∧
      rangeStep dfDegen dfDegen "Size" (some 3, some 5) = dfDegen) :=
  ⟨by decide, C6_degenerate_numeric_inactive dfDegen dfDegen "Size" (by decide) (some 3, some 5)⟩

/-- C9: in `load_data` the categorical cleaning is
`astype(str).fillna('N/A')`; the string conversion happens first and maps a
missing value to the string `"nan"`, so no missing value remains and the
`fillna` step changes nothing: the cleaned column is exactly the
stringified column, missing values end as `"nan"`, never `"N/A"`. -/
theorem C9_na_replacement_noop (col : List RawVal) :
    cleanCategorical col = astype_str col ∧
    cleanCategorical col = col.map (fun v => RawVal.str (pyStr v)) ∧
    pyStr RawVal.missing = "nan" ∧ pyStr RawVal.missing ≠ "N/A" := by
  refine ⟨?_, ?_, rfl, by decide⟩ <;>
    · unfold cleanCategorical fillna astype_str
      induction col with
      | nil => rfl
      | cons a l ih => simp [ih]

/-- A selections state with nothing active at all. -/
def inactiveSel : Selections :=
  ⟨false, false, false, false, false, false, false, false, [], [], [],
   (some 0, some 0), (some 0, some 0)⟩

def noFlushDf : DataFrame := ⟨["X"], [[("X", Cell.str "v")]]⟩

/-- A selections state in which only the "Flushable" checkbox is checked. -/
def onlyFlushSel : Selections :=
  ⟨true, false, false, false, false, false, false, false, [], [], [],
   (some 0, some 0), (some 0, some 0)⟩

/-- Counterexample to C3 as stated: on a dataset without a `Flushable`
column, checking the `Flushable` box makes line 158 of src/app.py index the
absent column, which raises a `KeyError` — the filter is not silently
skipped and an error is raised. -/
theorem C3_counterexample :
    "Flushable" ∉ noFlushDf.cols ∧
    applyFilters noFlushDf onlyFlushSel = Except.error "KeyError: Flushable" := by
  exact ⟨by decide, rfl⟩

/-- C3 amended: a display-mapping entry whose source column is absent from
the dataset is omitted from the projection (which never raises), and the
filter pipeline runs without error provided every *active* filter's column
is present — the option-derived filters (material, origin, quantity) and
the guarded range filters are inert when their column is absent because
their selections are then empty (their widgets are built only when the
column exists) or their guard checks presence; but an attribute checkbox
filter that is active while its column is absent raises a `KeyError`
instead of being skipped. -/
theorem C3_absent_column_amended (df0 : DataFrame) (sel : Selections)
    (dmap : List (String × String))
    (h : (sel.is_flushable = true ∨ sel.is_not_flushable = true → "Flushable" ∈ df0.cols) ∧
         (sel.is_scented = true ∨ sel.is_unscented = true → "Scent" ∈ df0.cols) ∧
         (sel.is_clumping = true ∨ sel.is_non_clumping = true → "Clumping" ∈ df0.cols) ∧
         (sel.is_eco_friendly = true → "Eco_friendly" ∈ df0.cols) ∧
         (sel.is_health_monitoring = true → "Health_Monitoring" ∈ df0.cols) ∧
         (sel.selected_mat_options ≠ [] → "Material Type" ∈ df0.cols) ∧
         (sel.selected_loc_options ≠ [] → "Mfg_Location" ∈ df0.cols) ∧
         (sel.selected_qty_options ≠ [] → "Qty" ∈ df0.cols)) :
    (∃ fd, applyFilters df0 sel = Except.ok fd) ∧
    (∀ c, c ∉ df0.cols → c ∉ existing_display_columns dmap df0) := by
  obtain ⟨h1, h2, h3, h4, h5, h6, h7, h8⟩ := h
  refine ⟨?_, ?_⟩
  · have p1 : pairSel sel.is_flushable "Flushable" sel.is_not_flushable "Not Flushable" ≠ [] →
        "Flushable" ∈ df0.cols := by
      intro hne
      refine h1 ?_
      cases hb1 : sel.is_flushable with
      | true => exact Or.inl rfl
      | false =>
        cases hb2 : sel.is_not_flushable with
        | true => exact Or.inr rfl
        | false => exact absurd (by simp [pairSel, hb1, hb2]) hne
    have p2 : pairSel sel.is_scented "Scented" sel.is_unscented "Unscented" ≠ [] →
        "Scent" ∈ df0.cols := by
      intro hne
      refine h2 ?_
      cases hb1 : sel.is_scented with
      | true => exact Or.inl rfl
      | false =>
        cases hb2 : sel.is_unscented with
        | true => exact Or.inr rfl
        | false => exact absurd (by simp [pairSel, hb1, hb2]) hne
    have p3 : pairSel sel.is_clumping "Clumping" sel.is_non_clumping "Non-Clumping" ≠ [] →
        "Clumping" ∈ df0.cols := by
      intro hne
      refine h3 ?_
      cases hb1 : sel.is_clumping with
      | true => exact Or.inl rfl
      | false =>
        cases hb2 : sel.is_non_clumping with
        | true => exact Or.inr rfl
        | false => exact absurd (by simp [pairSel, hb1, hb2]) hne
    obtain ⟨d1, e1, c1⟩ := isinStep_total (d := df0) p1
    obtain ⟨d2, e2, c2⟩ := isinStep_total (d := d1) (by rw [c1]; exact p2)
    obtain ⟨d3, e3, c3⟩ := isinStep_total (d := d2) (by rw [c2, c1]; exact p3)
    obtain ⟨d4, e4, c4⟩ := eqStep_total (d := d3) (v := "Eco-friendly")
      (by rw [c3, c2, c1]; exact h4)
    obtain ⟨d5, e5, c5⟩ := eqStep_total (d := d4) (v := "Yes")
      (by rw [c4, c3, c2, c1]; exact h5)
    obtain ⟨d6, e6, c6⟩ := isinStep_total (d := d5)
      (by rw [c5, c4, c3, c2, c1]; exact h6)
    obtain ⟨d7, e7, c7⟩ := isinStep_total (d := d6)
      (by rw [c6, c5, c4, c3, c2, c1]; exact h7)
    obtain ⟨d8, e8, c8⟩ := isinStep_total (d := d7)
      (by rw [c7, c6, c5, c4, c3, c2, c1]; exact h8)
    refine ⟨rangeStep df0 (rangeStep df0 d8 "Size" sel.selected_size_range)
      "Current_Price" sel.selected_price_range, ?_⟩
    unfold applyFilters
    simp only [e1, e2, e3, e4, e5, e6, e7, e8, ok_bind]
    rfl
  · intro c hc hmem
    have := (List.mem_filter.1 hmem).2
    exact hc (by simpa using this)

theorem C3_absent_column_amended_witness :
    ((inactiveSel.is_flushable = true ∨ inactiveSel.is_not_flushable = true →
        "Flushable" ∈ dfDegen.cols) ∧
     (inactiveSel.is_scented = true ∨ inactiveSel.is_unscented = true →
        "Scent" ∈ dfDegen.cols) ∧
     (inactiveSel.is_clumping = true ∨ inactiveSel.is_non_clumping = true →
        "Clumping" ∈ dfDegen.cols) ∧
     (inactiveSel.is_eco_friendly = true → "Eco_friendly" ∈ dfDegen.cols) ∧
     (inactiveSel.is_health_monitoring = true → "Health_Monitoring" ∈ dfDegen.cols) ∧
     (inactiveSel.selected_mat_options ≠ [] → "Material Type" ∈ dfDegen.cols) ∧
     (inactiveSel.selected_loc_options ≠ [] → "Mfg_Location" ∈ dfDegen.cols) ∧
     (inactiveSel.selected_qty_options ≠ [] → "Qty" ∈ dfDegen.cols)) ∧
    ((∃ fd, applyFilters dfDegen inactiveSel = Except.ok fd) ∧
     (∀ c, c ∉ dfDegen.cols → c ∉ existing_display_columns display_column_map dfDegen)) :=
  ⟨by decide, C3_absent_column_amended dfDegen inactiveSel display_column_map (by decide)⟩

/-- C7: when the display mapping yields no column that exists in the
filtered dataframe, the projection produces an empty table (no columns, no
rows) together with the descriptive warning text instead of failing, and the
app output still carries the match count `len(filtered_df)`. -/
theorem C7_empty_projection (df : DataFrame) (sel : Selections)
    (dmap : List (String × String)) (fd : DataFrame)
    (hf : applyFilters (sortByMeanPerfDesc df) sel = Except.ok fd)
    (h : existing_display_columns dmap fd = []) :
    displayPrep fd dmap =
      ([], [], some "No data to display based on the selected columns.") ∧
    runApp df sel dmap =
      Except.ok ⟨fd.rows.length, [], [],
        some "No data to display based on the selected columns."⟩ := by
  constructor
  · simp [displayPrep, h]
  · unfold runApp
    rw [hf]
    simp [displayPrep, h]

theorem C7_empty_projection_witness :
    (applyFilters (sortByMeanPerfDesc noFlushDf) inactiveSel = Except.ok noFlushDf) ∧
    (existing_display_columns display_column_map noFlushDf = []) ∧
    (displayPrep noFlushDf display_column_map =
      ([], [], some "No data to display based on the selected columns.") ∧
     runApp noFlushDf inactiveSel display_column_map =
      Except.ok ⟨1, [], [], some "No data to display based on the selected columns."⟩) :=
  ⟨rfl, by decide,
   C7_empty_projection noFlushDf inactiveSel display_column_map noFlushDf rfl (by decide)⟩

/-- C5: with no selections at all (no box checked, no option picked, the
sliders left at their full-range default) the pipeline of src/app.py leaves
the dataframe untouched — the compiled mask is all-true — and the
spec-modelled `compile_mask` set filter returns an all-true mask with zero
warnings under both the default-all and the default-none empty-selection
policies (the well-formedness hypothesis says every row carries the
column, as in a real dataframe). -/
theorem C5_identity_no_selections (df : DataFrame) (col : String)
    (wf : ∀ r ∈ df.rows, (rowVal r col).isSome = true) :
    applyFilters df (defaultSelections df) = Except.ok df ∧
    (∀ policy : Bool,
      compileSetMask policy df col [] = (df.rows.map (fun _ => true), [])) := by
  constructor
  · unfold applyFilters
    have hstep : ∀ (d : DataFrame) (c : String), isinStep d c [] = Except.ok d :=
      fun d c => rfl
    have hflag : ∀ (d : DataFrame) (c v : String), eqStep d false c v = Except.ok d :=
      fun d c v => rfl
    have hsize : rangeStep df df "Size" (defaultSelections df).selected_size_range = df := by
      show rangeStep df df "Size"
        (if "Size" ∈ df.cols then (colMin df "Size", colMax df "Size")
         else (some 0, some 0)) = df
      by_cases hc : "Size" ∈ df.cols
      · rw [if_pos hc]
        exact rangeStep_noop df df "Size"
      · rw [if_neg hc]
        unfold rangeStep
        rw [if_neg hc]
    have hprice : rangeStep df df "Current_Price"
        (defaultSelections df).selected_price_range = df := by
      show rangeStep df df "Current_Price"
        (if "Current_Price" ∈ df.cols then (colMin df "Current_Price", colMax df "Current_Price")
         else (some 0, some 0)) = df
      by_cases hc : "Current_Price" ∈ df.cols
      · rw [if_pos hc]
        exact rangeStep_noop df df "Current_Price"
      · rw [if_neg hc]
        unfold rangeStep
        rw [if_neg hc]
    have hpair : ∀ v1 v2 : String,
        pairSel (defaultSelections df).is_flushable v1 (defaultSelections df).is_not_flushable v2
          = [] := fun _ _ => rfl
    simp only [show (defaultSelections df).is_flushable = false from rfl,
      show (defaultSelections df).is_not_flushable = false from rfl,
      show (defaultSelections df).is_scented = false from rfl,
      show (defaultSelections df).is_unscented = false from rfl,
      show (defaultSelections df).is_clumping = false from rfl,
      show (defaultSelections df).is_non_clumping = false from rfl,
      show (defaultSelections df).is_eco_friendly = false from rfl,
      show (defaultSelections df).is_health_monitoring = false from rfl,
      show (defaultSelections df).selected_mat_options = [] from rfl,
      show (defaultSelections df).selected_loc_options = [] from rfl,
      show (defaultSelections df).selected_qty_options = [] from rfl,
      show ∀ v1 v2 : String, pairSel false v1 false v2 = [] from fun _ _ => rfl,
      hstep, hflag, ok_bind]
    rw [hsize, hprice]
    rfl
  · intro policy
    cases policy with
    | false => rfl
    | true =>
      unfold compileSetMask
      rw [if_neg (by simp)]
      by_cases hc : col ∈ df.cols
      · rw [if_pos hc]
        have hmap : df.rows.map
            (fun r => (rowVal r col).elim false
              (fun c => (if ([] : List Cell).isEmpty then distinctCells df col else []).contains c))
            = df.rows.map (fun _ => true) := by
          refine List.map_congr_left ?_
          intro r hr
          obtain ⟨c, hcell⟩ := Option.isSome_iff_exists.1 (wf r hr)
          have hmem : c ∈ distinctCells df col :=
            List.mem_dedup.2 (List.mem_filterMap.2 ⟨r, hr, hcell⟩)
          simp [hcell, hmem]
        simpa using hmap
      · rw [if_neg hc]
        simp

theorem C5_identity_no_selections_witness :
    (∀ r ∈ dfDegen.rows, (rowVal r "Size").isSome = true) ∧
    (applyFilters dfDegen (defaultSelections dfDegen) = Except.ok dfDegen ∧
     (∀ policy : Bool,
       compileSetMask policy dfDegen "Size" [] = (dfDegen.rows.map (fun _ => true), []))) :=
  ⟨by decide, C5_identity_no_selections dfDegen "Size" (by decide)⟩

/-- C4: the reported match count is `len(filtered_df)` (src/app.py line
203), which equals the number of dataset rows satisfying the compiled mask
`rowPasses`, and it does not depend on the display mapping: for any other
mapping — including one yielding zero existing columns — the app output has
the same match count. -/
theorem C4_match_count_independent (df : DataFrame) (sel : Selections)
    (dmap dmap' : List (String × String)) (out : AppOutput)
    (h : runApp df sel dmap = Except.ok out) :
    out.match_count = df.rows.countP (rowPasses (sortByMeanPerfDesc df) sel) ∧
    (∃ out', runApp df sel dmap' = Except.ok out' ∧
      out'.match_count = out.match_count) := by
  unfold runApp at h
  cases hf : applyFilters (sortByMeanPerfDesc df) sel with
  | error e =>
    rw [hf] at h
    exact absurd h (by simp)
  | ok fd =>
    rw [hf] at h
    have hout : out.match_count = fd.rows.length := by
      rw [← Except.ok.inj h]
    constructor
    · rw [hout]
      obtain ⟨hc, hr⟩ := applyFilters_ok hf
      rw [hr, ← List.countP_eq_length_filter]
      exact (sortByMeanPerfDesc_perm df).countP_eq _
    · refine ⟨⟨fd.rows.length, (displayPrep fd dmap').1, (displayPrep fd dmap').2.1,
        (displayPrep fd dmap').2.2⟩, ?_, hout.symm⟩
      unfold runApp
      rw [hf]

theorem C4_match_count_independent_witness :
    (runApp noFlushDf inactiveSel display_column_map =
      Except.ok ⟨1, [], [], some "No data to display based on the selected columns."⟩) ∧
    ((⟨1, [], [], some "No data to display based on the selected columns."⟩ :
        AppOutput).match_count =
      noFlushDf.rows.countP (rowPasses (sortByMeanPerfDesc noFlushDf) inactiveSel) ∧
     (∃ out', runApp noFlushDf inactiveSel [] = Except.ok out' ∧
        out'.match_count =
          (⟨1, [], [], some "No data to display based on the selected columns."⟩ :
            AppOutput).match_count)) :=
  ⟨rfl, C4_match_count_independent noFlushDf inactiveSel display_column_map [] _ rfl⟩

/-- The 5-row example dataset of the spec scenario: a `Flushable` column
with three `"Flushable"` rows and two `"Not Flushable"` rows. -/
def exC1df : DataFrame :=
  ⟨["Flushable", "Amazon_Product"],
   [[("Flushable", Cell.str "Flushable"), ("Amazon_Product", Cell.str "p1")],
    [("Flushable", Cell.str "Not Flushable"), ("Amazon_Product", Cell.str "p2")],
    [("Flushable", Cell.str "Flushable"), ("Amazon_Product", Cell.str "p3")],
    [("Flushable", Cell.str "Flushable"), ("Amazon_Product", Cell.str "p4")],
    [("Flushable", Cell.str "Not Flushable"), ("Amazon_Product", Cell.str "p5")]]⟩

/-- C1: the boolean-pair filter builds its allowed-value list from exactly
the checked states: with neither box checked it restricts nothing (for any
dataset, even one missing the column); with exactly one box checked only
rows whose column value equals that state's stored value pass; with both
checked a row passes iff its value is either stored value.  On the concrete
5-row scenario with only "Flushable" checked, the match count is 3 and the
display table has exactly 3 rows. -/
theorem C1_boolean_pair_filter (df : DataFrame) (col v1 v2 : String)
    (hc : col ∈ df.cols) :
    (isinStep df col (pairSel false v1 false v2) = Except.ok df) ∧
    (isinStep df col (pairSel true v1 false v2) =
      Except.ok ⟨df.cols, df.rows.filter
        (fun r => decide (rowVal r col = some (Cell.str v1)))⟩) ∧
    (isinStep df col (pairSel false v1 true v2) =
      Except.ok ⟨df.cols, df.rows.filter
        (fun r => decide (rowVal r col = some (Cell.str v2)))⟩) ∧
    (isinStep df col (pairSel true v1 true v2) =
      Except.ok ⟨df.cols, df.rows.filter
        (fun r => decide (rowVal r col = some (Cell.str v1)) ||
                  decide (rowVal r col = some (Cell.str v2)))⟩) ∧
    (∃ out, runApp exC1df onlyFlushSel display_column_map = Except.ok out ∧
      out.match_count = 3 ∧ out.table.length = 3) := by
  refine ⟨rfl, ?_, ?_, ?_, ⟨_, rfl, by decide, by decide⟩⟩
  · unfold isinStep
    rw [if_neg (by simp [pairSel]), if_pos hc]
    refine congrArg Except.ok (congrArg (DataFrame.mk df.cols) (List.filter_congr ?_))
    intro r _
    cases hv : rowVal r col with
    | none => simp [cellIsin, pairSel]
    | some c =>
      cases c with
      | num q => simp [cellIsin, pairSel]
      | str s =>
        by_cases hs : s = v1 <;> simp [cellIsin, pairSel, hs]
  · unfold isinStep
    rw [if_neg (by simp [pairSel]), if_pos hc]
    refine congrArg Except.ok (congrArg (DataFrame.mk df.cols) (List.filter_congr ?_))
    intro r _
    cases hv : rowVal r col with
    | none => simp [cellIsin, pairSel]
    | some c =>
      cases c with
      | num q => simp [cellIsin, pairSel]
      | str s =>
        by_cases hs : s = v2 <;> simp [cellIsin, pairSel, hs]
  · unfold isinStep
    rw [if_neg (by simp [pairSel]), if_pos hc]
    refine congrArg Except.ok (congrArg (DataFrame.mk df.cols) (List.filter_congr ?_))
    intro r _
    cases hv : rowVal r col with
    | none => simp [cellIsin, pairSel]
    | some c =>
      cases c with
      | num q => simp [cellIsin, pairSel]
      | str s =>
        by_cases hs1 : s = v1 <;> by_cases hs2 : s = v2 <;>
          simp [cellIsin, pairSel, hs1, hs2]

theorem C1_boolean_pair_filter_witness :
    ("Flushable" ∈ exC1df.cols) ∧
    (isinStep exC1df "Flushable" (pairSel true "Flushable" false "Not Flushable") =
      Except.ok ⟨exC1df.cols, exC1df.rows.filter
        (fun r => decide (rowVal r "Flushable" = some (Cell.str "Flushable")))⟩) :=
  ⟨by decide,
   (C1_boolean_pair_filter exC1df "Flushable" "Flushable" "Not Flushable" (by decide)).2.1⟩

/-- C2: the range filter runs only when the selected interval moved strictly
inside the full data range (a bound comparison against the column min/max
succeeds); when it runs, a row passes iff its value is a parsed number `q`
with `lo ≤ q ≤ hi`, both ends inclusive — rows with a missing or
unparseable value are excluded; a selected interval `[10, 10]` keeps exactly
the rows whose value is `10`; and a selected interval equal to the column's
full `(min, max)` leaves the dataframe untouched, identical to the filter
being absent. -/
theorem C2_range_filter (df0 d : DataFrame) (col : String) (lo hi : ℚ)
    (hc : col ∈ d.cols) :
    ((gtO (some lo) (colMin df0 col) || ltO (some hi) (colMax df0 col)) = true →
      rangeStep df0 d col (some lo, some hi) =
        ⟨d.cols, d.rows.filter (fun r =>
          match rowVal r col with
          | some (Cell.num (some q)) => decide (lo ≤ q) && decide (q ≤ hi)
          | _ => false)⟩) ∧
    ((gtO (some (10 : ℚ)) (colMin df0 col) || ltO (some (10 : ℚ)) (colMax df0 col)) = true →
      rangeStep df0 d col (some 10, some 10) =
        ⟨d.cols, d.rows.filter (fun r =>
          decide (rowVal r col = some (Cell.num (some 10))))⟩) ∧
    rangeStep df0 d col (colMin df0 col, colMax df0 col) = d := by
  refine ⟨?_, ?_, rangeStep_noop df0 d col⟩
  · intro hg
    unfold rangeStep
    rw [if_pos hc, if_pos hg]
    refine congrArg (DataFrame.mk d.cols) (List.filter_congr ?_)
    intro r _
    cases hv : rowVal r col with
    | none => rfl
    | some c =>
      cases c with
      | str s => rfl
      | num q => cases q <;> rfl
  · intro hg
    unfold rangeStep
    rw [if_pos hc, if_pos hg]
    refine congrArg (DataFrame.mk d.cols) (List.filter_congr ?_)
    intro r _
    cases hv : rowVal r col with
    | none => simp [betweenCell]
    | some c =>
      cases c with
      | str s => simp [betweenCell]
      | num q =>
        cases q with
        | none => simp [betweenCell]
        | some x =>
          by_cases hx : x = (10 : ℚ)
          · simp [betweenCell, hx]
          · have h1 : ¬((10 : ℚ) ≤ x ∧ x ≤ 10) := fun hle =>
              hx (le_antisymm hle.2 hle.1)
            simp only [betweenCell]
            rcases not_and_or.1 h1 with h2 | h2 <;> simp [hx, h2]

def exC2df : DataFrame :=
  ⟨["Current_Price"],
   [[("Current_Price", Cell.num (some 10))],
    [("Current_Price", Cell.num (some 20))],
    [("Current_Price", Cell.num none)]]⟩

theorem C2_range_filter_witness :
    ("Current_Price" ∈ exC2df.cols) ∧
    ((gtO (some (10 : ℚ)) (colMin exC2df "Current_Price") ||
      ltO (some (10 : ℚ)) (colMax exC2df "Current_Price")) = true) ∧
    (rangeStep exC2df exC2df "Current_Price" (some 10, some 10) =
      ⟨exC2df.cols, exC2df.rows.filter (fun r =>
        decide (rowVal r "Current_Price" = some (Cell.num (some 10))))⟩) ∧
    (rangeStep exC2df exC2df "Current_Price"
      (colMin exC2df "Current_Price", colMax exC2df "Current_Price") = exC2df) :=
  ⟨by decide, by decide,
   (C2_range_filter exC2df exC2df "Current_Price" 10 10 (by decide)).2.1 (by decide),
   (C2_range_filter exC2df exC2df "Current_Price" 10 10 (by decide)).2.2⟩

def rowTieA : Row :=
  [("Mean_Performance", Cell.num (some 1)), ("Amazon_Product", Cell.str "A")]

def rowTieB : Row :=
  [("Mean_Performance", Cell.num (some 1)), ("Amazon_Product", Cell.str "B")]

def dfTie : DataFrame := ⟨["Mean_Performance", "Amazon_Product"], [rowTieA, rowTieB]⟩

/-- Within each class of rows sharing a sort key, a stable insertion sort
keeps the input order verbatim: its filter by that key equals the input's
filter.  (The filtered input is a pairwise-`keyLE` sublist of the input, so
it is a sublist of the sort; being also a permutation of the sort's filter,
it equals it.) -/
theorem filter_insertionSort_tie (l : List (ℚ × Row)) (q : ℚ) :
    (List.insertionSort keyLE l).filter (fun p => decide (p.1 = q)) =
      l.filter (fun p => decide (p.1 = q)) := by
  have hsub : List.Sublist (l.filter (fun p => decide (p.1 = q)))
      (List.insertionSort keyLE l) := by
    refine List.sublist_insertionSort ?_ (List.filter_sublist l)
    refine pairwise_of_mem_rel ?_
    intro a ha b hb
    have ha' : a.1 = q := of_decide_eq_true (List.mem_filter.1 ha).2
    have hb' : b.1 = q := of_decide_eq_true (List.mem_filter.1 hb).2
    show a.1 ≤ b.1
    rw [ha', hb']
  have hid : (l.filter (fun p => decide (p.1 = q))).filter (fun p => decide (p.1 = q)) =
      l.filter (fun p => decide (p.1 = q)) := by
    rw [List.filter_filter]
    exact List.filter_congr (fun a _ => Bool.and_self _)
  have hsub2 : List.Sublist (l.filter (fun p => decide (p.1 = q)))
      ((List.insertionSort keyLE l).filter (fun p => decide (p.1 = q))) := by
    have := hsub.filter (fun p => decide (p.1 = q))
    rwa [hid] at this
  have hlen : ((List.insertionSort keyLE l).filter (fun p => decide (p.1 = q))).length =
      (l.filter (fun p => decide (p.1 = q))).length :=
    ((List.perm_insertionSort keyLE l).filter _).length_eq
  exact (hsub2.eq_of_length hlen.symm).symm

theorem filterMap_key_filter_eq (l : List Row) (q : ℚ) :
    ((l.filterMap (fun r => (mpKey r).map (fun k => (k, r)))).filter
        (fun p => decide (p.1 = q))).map Prod.snd =
      l.filter (fun r => decide (mpKey r = some q)) := by
  induction l with
  | nil => rfl
  | cons a l ih =>
    cases hk : mpKey a with
    | none => simp [List.filterMap_cons, hk, List.filter_cons, ih]
    | some k =>
      by_cases hkq : k = q
      · simp [List.filterMap_cons, hk, List.filter_cons, hkq, ih]
      · simp [List.filterMap_cons, hk, List.filter_cons, hkq, ih]

/-- The default sort is stable on ties: the rows holding any given
`Mean_Performance` value appear in the sorted frame in exactly their
original relative order. -/
theorem sortByMeanPerfDesc_stable_filter (df : DataFrame) (q : ℚ) :
    (sortByMeanPerfDesc df).rows.filter (fun r => decide (mpKey r = some q)) =
      df.rows.filter (fun r => decide (mpKey r = some q)) := by
  unfold sortByMeanPerfDesc
  split
  · show ((((List.insertionSort keyLE
        ((df.rows.filterMap (fun r => (mpKey r).map (fun k => (k, r)))).reverse)).reverse.map
          Prod.snd) ++
        df.rows.filter (fun r => (mpKey r).isNone)).filter
          (fun r => decide (mpKey r = some q))) = _
    rw [List.filter_append]
    have h2 : (df.rows.filter (fun r => (mpKey r).isNone)).filter
        (fun r => decide (mpKey r = some q)) = [] := by
      rw [List.filter_filter]
      have hfalse : ∀ r ∈ df.rows,
          (decide (mpKey r = some q) && (mpKey r).isNone) = false := by
        intro r _
        cases mpKey r <;> simp
      rw [List.filter_congr hfalse]
      exact List.filter_false _
    rw [h2, List.append_nil, List.filter_map, List.filter_reverse]
    have h3 : (List.insertionSort keyLE
        ((df.rows.filterMap (fun r => (mpKey r).map (fun k => (k, r)))).reverse)).filter
          ((fun r => decide (mpKey r = some q)) ∘ Prod.snd) =
        (List.insertionSort keyLE
        ((df.rows.filterMap (fun r => (mpKey r).map (fun k => (k, r)))).reverse)).filter
          (fun p => decide (p.1 = q)) := by
      refine List.filter_congr ?_
      intro p hp
      have hp' : mpKey p.2 = some p.1 :=
        mem_filterMap_key
          (List.mem_reverse.1 ((List.perm_insertionSort keyLE _).mem_iff.1 hp))
      show decide (mpKey p.2 = some q) = decide (p.1 = q)
      rw [hp']
      simp
    rw [h3, filter_insertionSort_tie, List.filter_reverse, List.reverse_reverse]
    exact filterMap_key_filter_eq df.rows q
  · rfl

/-- The missing-score rows also keep their original relative order: they are
carried to the end of the sorted frame by `na_position='last'` untouched. -/
theorem sortByMeanPerfDesc_stable_nan (df : DataFrame) :
    (sortByMeanPerfDesc df).rows.filter (fun r => (mpKey r).isNone) =
      df.rows.filter (fun r => (mpKey r).isNone) := by
  unfold sortByMeanPerfDesc
  split
  · show ((((List.insertionSort keyLE
        ((df.rows.filterMap (fun r => (mpKey r).map (fun k => (k, r)))).reverse)).reverse.map
          Prod.snd) ++
        df.rows.filter (fun r => (mpKey r).isNone)).filter
          (fun r => (mpKey r).isNone)) = _
    rw [List.filter_append]
    have h1 : ((List.insertionSort keyLE
        ((df.rows.filterMap (fun r => (mpKey r).map (fun k => (k, r)))).reverse)).reverse.map
          Prod.snd).filter (fun r => (mpKey r).isNone) = [] := by
      rw [List.filter_map, List.filter_reverse]
      have hfalse : ∀ p ∈ List.insertionSort keyLE
          ((df.rows.filterMap (fun r => (mpKey r).map (fun k => (k, r)))).reverse),
          ((fun r => (mpKey r).isNone) ∘ Prod.snd) p = false := by
        intro p hp
        have hp' : mpKey p.2 = some p.1 :=
          mem_filterMap_key
            (List.mem_reverse.1 ((List.perm_insertionSort keyLE _).mem_iff.1 hp))
        show (mpKey p.2).isNone = false
        rw [hp']
        rfl
      rw [List.filter_congr hfalse, List.filter_false]
      rfl
    have h2 : (df.rows.filter (fun r => (mpKey r).isNone)).filter
        (fun r => (mpKey r).isNone) = df.rows.filter (fun r => (mpKey r).isNone) := by
      rw [List.filter_filter]
      exact List.filter_congr (fun r _ => Bool.and_self _)
    rw [h1, h2, List.nil_append]
  · rfl

/-- C8: the displayed rows are the dataset rows re-ordered only by the
default sort step: when `Mean_Performance` is a column the order is a
permutation of the dataset rows, descending in that score with missing
scores last, and the sort is stable with respect to the original order on
ties — the rows of every equal-score class (and of the missing-score class)
keep their original relative order verbatim; without the column the order is
untouched; and the filtered view is this sorted row list filtered in place
(an order-preserving subset). -/
theorem C8_default_sort_descending_stable (df : DataFrame) :
    (sortByMeanPerfDesc df).cols = df.cols ∧
    (sortByMeanPerfDesc df).rows.Perm df.rows ∧
    ("Mean_Performance" ∈ df.cols →
      (sortByMeanPerfDesc df).rows.Pairwise (fun r s => keyGE (mpKey r) (mpKey s))) ∧
    (∀ q : ℚ, (sortByMeanPerfDesc df).rows.filter (fun r => decide (mpKey r = some q)) =
      df.rows.filter (fun r => decide (mpKey r = some q))) ∧
    ((sortByMeanPerfDesc df).rows.filter (fun r => (mpKey r).isNone) =
      df.rows.filter (fun r => (mpKey r).isNone)) ∧
    ("Mean_Performance" ∉ df.cols → sortByMeanPerfDesc df = df) ∧
    (∀ sel fd, applyFilters (sortByMeanPerfDesc df) sel = Except.ok fd →
      fd.rows = (sortByMeanPerfDesc df).rows.filter
        (rowPasses (sortByMeanPerfDesc df) sel)) := by
  refine ⟨sortByMeanPerfDesc_cols df, sortByMeanPerfDesc_perm df,
    sortByMeanPerfDesc_sorted df, sortByMeanPerfDesc_stable_filter df,
    sortByMeanPerfDesc_stable_nan df, ?_, fun sel fd hf => (applyFilters_ok hf).2⟩
  intro h
  unfold sortByMeanPerfDesc
  rw [if_neg h]

theorem C8_default_sort_descending_stable_witness :
    ("Mean_Performance" ∈ dfTie.cols) ∧
    (sortByMeanPerfDesc dfTie).rows.Pairwise (fun r s => keyGE (mpKey r) (mpKey s)) ∧
    ((sortByMeanPerfDesc dfTie).rows.filter (fun r => decide (mpKey r = some 1)) =
      dfTie.rows.filter (fun r => decide (mpKey r = some 1))) ∧
    (sortByMeanPerfDesc dfTie).rows = [rowTieA, rowTieB] :=
  ⟨by decide, (C8_default_sort_descending_stable dfTie).2.2.1 (by decide),
   (C8_default_sort_descending_stable dfTie).2.2.2.1 1, by decide⟩

theorem digChar_ne_dot (n : Nat) : digChar n ≠ '.' := by
  unfold digChar
  repeat' split
  all_goals decide

theorem natDigsAux_ne_dot : ∀ fuel n, '.' ∉ natDigsAux fuel n := by
  intro fuel
  induction fuel with
  | zero =>
    intro n hmem
    exact digChar_ne_dot n (List.mem_singleton.1 hmem).symm
  | succ fuel ih =>
    intro n
    unfold natDigsAux
    split
    · intro hmem
      exact digChar_ne_dot n (List.mem_singleton.1 hmem).symm
    · intro hmem
      rcases List.mem_append.1 hmem with h | h
      · exact ih _ h
      · exact digChar_ne_dot _ (List.mem_singleton.1 h).symm

theorem intStr_ne_dot (z : ℤ) : '.' ∉ (intStr z).data := by
  unfold intStr natStr natDigs
  split
  · rw [String.data_append]
    intro hmem
    rcases List.mem_append.1 hmem with h | h
    · revert h
      decide
    · exact natDigsAux_ne_dot _ _ h
  · exact natDigsAux_ne_dot _ _

theorem qtyLabels_ne_dot (df : DataFrame) : ∀ l ∈ qtyLabels df, '.' ∉ l.data := by
  intro l hl
  rcases List.mem_map.1 hl with ⟨v, _, hv⟩
  rw [← hv]
  exact intStr_ne_dot _

/-- C10: the quantity filter's selectable labels are `str(int(v))` of the
distinct parseable numeric `Qty` values, while the `Qty` cells hold the raw
string forms; a row passes an active quantity filter iff its `Qty` string is
literally one of the selected labels, and since no label contains a decimal
point, a `Qty` string with a fractional representation such as `"25.0"`
matches no selectable option. -/
theorem C10_qty_formatted_string_match (df d : DataFrame) (selq : List String)
    (hsub : ∀ x ∈ selq, x ∈ qtyLabels df) (hne : selq ≠ []) (hc : "Qty" ∈ d.cols) :
    (isinStep d "Qty" selq =
      Except.ok ⟨d.cols, d.rows.filter (fun r => cellIsin (rowVal r "Qty") selq)⟩) ∧
    (∀ r s, rowVal r "Qty" = some (Cell.str s) →
      (cellIsin (rowVal r "Qty") selq = true ↔ s ∈ selq)) ∧
    (∀ r s, rowVal r "Qty" = some (Cell.str s) → '.' ∈ s.data →
      cellIsin (rowVal r "Qty") selq = false) := by
  refine ⟨?_, ?_, ?_⟩
  · unfold isinStep
    rw [if_neg (by simpa [List.isEmpty_iff] using hne), if_pos hc]
  · intro r s hr
    rw [hr]
    simp [cellIsin, List.contains]
  · intro r s hr hdot
    rw [hr]
    have hnotmem : s ∉ selq := fun hmem => qtyLabels_ne_dot df s (hsub s hmem) hdot
    simp [cellIsin, List.contains, hnotmem]

def exC10df : DataFrame :=
  ⟨["Qty"], [[("Qty", Cell.str "25.0")], [("Qty", Cell.str "3")]]⟩

theorem C10_qty_formatted_string_match_witness :
    (∀ x ∈ ["25"], x ∈ qtyLabels exC10df) ∧ (["25"] ≠ ([] : List String)) ∧
    ("Qty" ∈ exC10df.cols) ∧
    (rowVal [("Qty", Cell.str "25.0")] "Qty" = some (Cell.str "25.0")) ∧
    ('.' ∈ "25.0".data) ∧
    cellIsin (rowVal [("Qty", Cell.str "25.0")] "Qty") ["25"] = false :=
  ⟨by decide, by decide, by decide, by decide, by decide,
   (C10_qty_formatted_string_match exC10df exC10df ["25"] (by decide) (by decide)
      (by decide)).2.2 [("Qty", Cell.str "25.0")] "25.0" (by decide) (by decide)⟩
